import Mathlib

/-!
Verification of the token-lifecycle cache (`token_manager.py`) and the
button/device configuration contract (`button_config.py`, `button.py`) of
the wyze repository, as a shallow embedding in Lean 4.

Network calls, the clock and the filesystem are modelled as explicit
environment parameters; a vendor-SDK call that raises `WyzeApiError` is
modelled by the corresponding environment field being `none`.
-/

namespace Wyze

/-- A Wyze SDK `Client`, modelled by the token it was constructed with
(`Client(token=...)`; `Client()` with no token is `⟨none⟩`). -/
structure Client where
  token : Option String
deriving Repr, DecidableEq

/-- A successful token response mapping from the vendor API, as consumed by
`_update_tokens_and_client`: `token_data['access_token']`,
`token_data['refresh_token']`, `token_data.get('expires_in', 3600)`. -/
structure TokenData where
  access_token : String
  refresh_token : String
  expires_in : Option Int
deriving Repr, DecidableEq

/-- The mutable fields of `TokenManager` (`__init__` lines 14-17).
Times are integer seconds. -/
structure TMState where
  access_token : Option String
  refresh_token : Option String
  expires_at : Option Int
  client : Option Client
deriving Repr, DecidableEq

/-- The initial `TokenManager` state: all four fields `None`. -/
def TMState.init : TMState := ⟨none, none, none, none⟩

/-- Outcomes of the two network operations that a single `get_client()` call
may perform: `none` models the SDK call raising `WyzeApiError`. -/
structure NetEnv where
  loginResult : Option TokenData
  refreshResult : Option TokenData

/-- A network call attempted during `get_client()`. -/
inductive NetCall
  | login
  | refresh
deriving Repr, DecidableEq

/-- Python truthiness of an optional string (`None` and `""` are falsy). -/
def strTruthy : Option String → Bool
  | none => false
  | some s => !s.isEmpty

/-- Result of running one `get_client()` (or an internal step): the state
afterwards, the network calls attempted in order, and whether the call
raised (an uncaught `WyzeApiError`). -/
structure RunResult where
  state : TMState
  calls : List NetCall
  raised : Bool
deriving Repr, DecidableEq

/-- `TokenManager._update_tokens_and_client`: stores the new tokens, sets
`expires_at = now + expires_in` (default 3600 s) and builds a client bound
to the new access token. -/
def updateTokensAndClient (now : Int) (td : TokenData) : TMState :=
  { access_token := some td.access_token
    refresh_token := some td.refresh_token
    expires_at := some (now + td.expires_in.getD 3600)
    client := some ⟨some td.access_token⟩ }

/-- `TokenManager._login`: on success updates tokens and client; on
`WyzeApiError` it re-raises (state unchanged). -/
def loginStep (env : NetEnv) (now : Int) (s : TMState) : RunResult :=
  match env.loginResult with
  | some td => ⟨updateTokensAndClient now td, [NetCall.login], false⟩
  | none => ⟨s, [NetCall.login], true⟩

/-- `TokenManager._refresh`: on success updates tokens and client; on
`WyzeApiError` it falls back to `self._login()`. -/
def refreshStep (env : NetEnv) (now : Int) (s : TMState) : RunResult :=
  match env.refreshResult with
  | some td => ⟨updateTokensAndClient now td, [NetCall.refresh], false⟩
  | none =>
    let r := loginStep env now s
    ⟨r.state, NetCall.refresh :: r.calls, r.raised⟩

/-- `TokenManager.is_token_expired`: `True` when the access token is falsy
or no expiry is recorded, otherwise `now >= expires_at - 5 minutes`
(5 minutes = 300 seconds). -/
def is_token_expired (now : Int) (s : TMState) : Bool :=
  match s.expires_at with
  | none => true
  | some e => if strTruthy s.access_token then decide (now ≥ e - 300) else true

/-- Result of `get_client()`: the run (state, calls, raised) and the
returned client (`none` when the call raised instead of returning). -/
structure GetClientResult where
  run : RunResult
  ret : Option Client
deriving Repr

/-- `TokenManager.get_client`: if the token is expired, refresh when a
refresh token is (truthily) present, else log in; then return
`self.client`. -/
def get_client (env : NetEnv) (now : Int) (s : TMState) : GetClientResult :=
  let r :=
    if is_token_expired now s then
      if strTruthy s.refresh_token then refreshStep env now s
      else loginStep env now s
    else ⟨s, [], false⟩
  ⟨r, if r.raised then none else r.state.client⟩

/-- The `button_device` record persisted in `button_config.json`. -/
structure BtnDevice where
  mac : String
  nickname : String
deriving Repr, DecidableEq

/-- The parsed contents of `button_config.json` (the `config_data` dict):
`button_device` and `last_updated` (an ISO timestamp string). -/
structure ConfigData where
  button_device : Option BtnDevice
  last_updated : Option String
deriving Repr, DecidableEq

/-- One observation of the config file: `none` means the file does not
exist (`FileNotFoundError` / `os.path.exists` false), `some none` means it
exists but fails to parse (`json.JSONDecodeError` / `IOError`), and
`some (some cd)` means it parses to `cd`. -/
def ConfigFile := Option (Option ConfigData)

/-- `ButtonConfig._load_config`: parsed contents when the file exists and
parses, otherwise the default config with both fields `None`. -/
def load_config (file : ConfigFile) : ConfigData :=
  match file with
  | some (some cd) => cd
  | some none => ⟨none, none⟩
  | none => ⟨none, none⟩

/-- `ButtonConfig.__init__`: `self.config_data = self._load_config()`,
reading the file once at construction time. -/
def ButtonConfig.init (file : ConfigFile) : ConfigData :=
  load_config file

/-- `ButtonConfig.get_button_device`: returns
`self.config_data.get("button_device")` from the in-memory dict. -/
def get_button_device (config_data : ConfigData) : Option BtnDevice :=
  config_data.button_device

/-- `ButtonConfig.set_button_device`: overwrites the in-memory record with
the new mac/nickname and a fresh timestamp, then returns the result of
`_save_config()` (`saveOk`, `false` modelling an `IOError` on write). -/
def set_button_device (config_data : ConfigData) (mac nickname : String)
    (now_iso : String) (saveOk : Bool) : ConfigData × Bool :=
  let config_data := { config_data with
    button_device := some ⟨mac, nickname⟩
    last_updated := some now_iso }
  (config_data, saveOk)

/-- `ButtonConfig.clear_button_device`: nulls both in-memory fields, then
returns the result of `_save_config()`. -/
def clear_button_device (config_data : ConfigData) (saveOk : Bool) :
    ConfigData × Bool :=
  let config_data := { config_data with
    button_device := none
    last_updated := none }
  (config_data, saveOk)

/-- A device as listed by the vendor directory (`client.devices_list()`). -/
structure Product where
  model : String
deriving Repr, DecidableEq

/-- A device entry of the live directory, with the fields `button.py`
reads: `mac`, `nickname`, `is_online`, `type`, `product.model`. -/
structure Device where
  mac : String
  nickname : String
  is_online : Bool
  type : String
  product : Product
deriving Repr, DecidableEq

/-- Diagnostics printed by the button controller when a press cycle aborts
or degrades. -/
inductive Diag
  | config_not_found
  | invalid_json
  | no_device_configured
  | devices_list_error
  | device_not_found
  | device_offline
  | unsupported_type
deriving Repr, DecidableEq

/-- Environment of one button press: the current contents of
`button_config.json`, the live directory snapshot (`none` models
`devices_list()` raising `WyzeApiError`), and the per-device info calls
(`none` models `WyzeApiError`, `some b` yields `is_on = b`). -/
structure BtnEnv where
  configFile : ConfigFile
  devicesList : Option (List Device)
  plugInfo : String → Option Bool
  bulbInfo : String → Option Bool

/-- `FlaskIntegratedButtonController.get_target_device`: re-reads
`button_config.json`, then looks the configured MAC up in a fresh
`devices_list()` snapshot, requiring the device to exist and be online.
Returns the resolved device, or `none` together with the diagnostic
printed. -/
def get_target_device (env : BtnEnv) : Option Device × Option Diag :=
  match env.configFile with
  | none => (none, some Diag.config_not_found)
  | some none => (none, some Diag.invalid_json)
  | some (some config_data) =>
    match config_data.button_device with
    | none => (none, some Diag.no_device_configured)
    | some cfg =>
      match env.devicesList with
      | none => (none, some Diag.devices_list_error)
      | some devices =>
        match devices.find? (fun d => d.mac == cfg.mac) with
        | none => (none, some Diag.device_not_found)
        | some device =>
          if device.is_online then (some device, none)
          else (none, some Diag.device_offline)

/-- `FlaskIntegratedButtonController.get_device_state`: `Plug` uses
`client.plugs.info(...).is_on`, the bulb/light family uses
`client.bulbs.info(...).is_on`; an unknown type is assumed OFF, and a
`WyzeApiError` during the query is also assumed OFF. -/
def get_device_state (env : BtnEnv) (device : Device) : Bool :=
  if device.type == "Plug" then
    match env.plugInfo device.mac with
    | some is_on => is_on
    | none => false
  else if device.type == "MeshLight" || device.type == "Bulb"
      || device.type == "Light" then
    match env.bulbInfo device.mac with
    | some is_on => is_on
    | none => false
  else
    false

/-- The two controller objects commands are dispatched through. -/
inductive CtrlKind
  | plugs
  | bulbs
deriving Repr, DecidableEq

/-- The `device_controllers` dispatch table of `toggle_device`. -/
def device_controllers : String → Option CtrlKind
  | "Plug" => some CtrlKind.plugs
  | "MeshLight" => some CtrlKind.bulbs
  | "Bulb" => some CtrlKind.bulbs
  | "Light" => some CtrlKind.bulbs
  | _ => none

/-- A vendor on/off command, with the controller it is issued through and
the `device_mac` / `device_model` arguments. -/
inductive Cmd
  | turn_on (ctrl : CtrlKind) (device_mac device_model : String)
  | turn_off (ctrl : CtrlKind) (device_mac device_model : String)
deriving Repr, DecidableEq

/-- The mutable state of `FlaskIntegratedButtonController` relevant to a
press: `last_press_time` (seconds, rational to allow sub-second times). -/
structure BtnState where
  last_press_time : ℚ
deriving Repr, DecidableEq

/-- `self.debounce_delay = 1.0`. -/
def debounce_delay : ℚ := 1

/-- Result of one `toggle_device` press: the controller state afterwards,
the command issued (if any), and the abort/degrade diagnostic (if any). -/
structure ToggleResult where
  state : BtnState
  cmd : Option Cmd
  diag : Option Diag
deriving Repr, DecidableEq

/-- `FlaskIntegratedButtonController.toggle_device`: debounce-check,
remember the press time, resolve the target, query its state, and issue
the inverse command through the dispatch table. -/
def toggle_device (env : BtnEnv) (s : BtnState) (current_time : ℚ) :
    ToggleResult :=
  if current_time - s.last_press_time < debounce_delay then
    ⟨s, none, none⟩
  else
    let s' : BtnState := ⟨current_time⟩
    match get_target_device env with
    | (none, dg) => ⟨s', none, dg⟩
    | (some device, _) =>
      let current_state := get_device_state env device
      match device_controllers device.type with
      | none => ⟨s', none, some Diag.unsupported_type⟩
      | some controller =>
        if current_state then
          ⟨s', some (Cmd.turn_off controller device.mac device.product.model),
            none⟩
        else
          ⟨s', some (Cmd.turn_on controller device.mac device.product.model),
            none⟩

/-- States of the `TokenManager` reachable from the initial state through
`get_client()` calls — the only operation the rest of the repository
invokes on the manager. -/
inductive Reachable : TMState → Prop
  | init : Reachable TMState.init
  | step (env : NetEnv) (now : Int) {s : TMState} :
      Reachable s → Reachable (get_client env now s).run.state

/-- The token fields and the client are either all unset (the initial
state) or were all set together by one successful token update, the client
bound to the stored access token. -/
def TMInv (s : TMState) : Prop :=
  s = TMState.init ∨
    ∃ a r e, s.access_token = some a ∧ s.refresh_token = some r ∧
      s.expires_at = some e ∧ s.client = some ⟨some a⟩

lemma get_client_state_cases (env : NetEnv) (now : Int) (s : TMState) :
    (get_client env now s).run.state = s ∨
    ∃ td, (get_client env now s).run.state = updateTokensAndClient now td := by
  unfold get_client
  cases hexp : is_token_expired now s with
  | false => simp
  | true =>
    cases hrt : strTruthy s.refresh_token with
    | false =>
      cases hl : env.loginResult with
      | none => simp [loginStep, hl]
      | some td => exact Or.inr ⟨td, by simp [loginStep, hl]⟩
    | true =>
      cases hr : env.refreshResult with
      | some td => exact Or.inr ⟨td, by simp [refreshStep, hr]⟩
      | none =>
        cases hl : env.loginResult with
        | none => simp [refreshStep, hr, loginStep, hl]
        | some td => exact Or.inr ⟨td, by simp [refreshStep, hr, loginStep, hl]⟩

lemma tminv_of_reachable {s : TMState} (h : Reachable s) : TMInv s := by
  induction h with
  | init => exact Or.inl rfl
  | step env now hs ih =>
    rcases get_client_state_cases env now _ with heq | ⟨td, heq⟩
    · rw [heq]; exact ih
    · rw [heq]
      exact Or.inr ⟨td.access_token, td.refresh_token,
        now + td.expires_in.getD 3600, rfl, rfl, rfl, rfl⟩

lemma strTruthy_some {o : Option String} (h : strTruthy o = true) :
    ∃ a, o = some a := by
  cases o with
  | none => simp [strTruthy] at h
  | some a => exact ⟨a, rfl⟩

lemma get_client_ok_of_inv (env : NetEnv) (now : Int) {s : TMState}
    (hinv : TMInv s) (hr : (get_client env now s).run.raised = false) :
    ∃ a : String,
      (get_client env now s).run.state.access_token = some a ∧
      (get_client env now s).ret = some ⟨some a⟩ ∧
      (get_client env now s).ret = (get_client env now s).run.state.client ∧
      ((get_client env now s).run.calls = [] →
        (get_client env now s).run.state = s ∧
        (get_client env now s).ret = s.client) := by
  cases hexp : is_token_expired now s with
  | false =>
    have hacc : strTruthy s.access_token = true := by
      unfold is_token_expired at hexp
      cases he : s.expires_at with
      | none => rw [he] at hexp; simp at hexp
      | some e =>
        rw [he] at hexp
        by_contra hc
        simp only [Bool.not_eq_true] at hc
        rw [hc] at hexp
        simp at hexp
    obtain ⟨a, ha⟩ := strTruthy_some hacc
    have hclient : s.client = some ⟨some a⟩ := by
      rcases hinv with hi | ⟨a', r', e', ha', _, _, hc'⟩
      · rw [hi] at ha; simp [TMState.init] at ha
      · rw [ha] at ha'
        obtain rfl : a' = a := by injection ha'.symm
        exact hc'
    refine ⟨a, ?_, ?_, ?_, fun _ => ⟨?_, ?_⟩⟩ <;>
      simp [get_client, hexp, ha, hclient]
  | true =>
    cases hrt : strTruthy s.refresh_token with
    | true =>
      cases hre : env.refreshResult with
      | some td =>
        refine ⟨td.access_token, ?_, ?_, ?_, ?_⟩ <;>
          simp [get_client, hexp, hrt, refreshStep, hre,
            updateTokensAndClient]
      | none =>
        cases hl : env.loginResult with
        | none =>
          exfalso
          simp [get_client, hexp, hrt, refreshStep, hre, loginStep, hl] at hr
        | some td =>
          refine ⟨td.access_token, ?_, ?_, ?_, ?_⟩ <;>
            simp [get_client, hexp, hrt, refreshStep, hre, loginStep, hl,
              updateTokensAndClient]
    | false =>
      cases hl : env.loginResult with
      | none =>
        exfalso
        simp [get_client, hexp, hrt, loginStep, hl] at hr
      | some td =>
        refine ⟨td.access_token, ?_, ?_, ?_, ?_⟩ <;>
          simp [get_client, hexp, hrt, loginStep, hl, updateTokensAndClient]

/-- C1 counterexample: a token state whose `expires_at` lies far more than
5 minutes in the future but whose access token is absent. The claim says
`get_client()` performs no login and no refresh there; the code considers
the token expired and performs a login. -/
theorem get_client_far_future_counterexample :
    (0 : Int) < 1000000 - 300 ∧
    is_token_expired 0 ⟨none, none, some 1000000, none⟩ = true ∧
    (get_client ⟨some ⟨"a", "r", none⟩, some ⟨"a", "r", none⟩⟩ 0
      ⟨none, none, some 1000000, none⟩).run.calls = [NetCall.login] := by
  decide

/-- C1 (amended): when an access token is (truthily) present and
`expires_at` is more than 5 minutes in the future, `get_client()` performs
no login and no refresh call and returns the stored client on an unchanged
state; and the token is considered expired exactly when the access token
is absent (or empty), the expiry is absent, or the current time is within
5 minutes of expiry. -/
theorem get_client_fresh_token_no_network (env : NetEnv) (now : Int)
    (s : TMState) :
    (∀ e : Int, s.expires_at = some e → now < e - 300 →
      strTruthy s.access_token = true →
        (get_client env now s).run.calls = [] ∧
        (get_client env now s).run.state = s ∧
        (get_client env now s).ret = s.client) ∧
    (is_token_expired now s = true ↔
      strTruthy s.access_token = false ∨ s.expires_at = none ∨
        ∃ e : Int, s.expires_at = some e ∧ now ≥ e - 300) := by
  constructor
  · intro e he hlt ha
    have hexp : is_token_expired now s = false := by
      simp only [is_token_expired, he, ha, if_true,
        decide_eq_false_iff_not]
      omega
    refine ⟨?_, ?_, ?_⟩ <;> simp [get_client, hexp]
  · unfold is_token_expired
    cases he : s.expires_at with
    | none => simp
    | some e =>
      cases ha : strTruthy s.access_token with
      | false => simp [ha]
      | true =>
        simp only [ha, if_true, decide_eq_true_eq, Option.some.injEq]
        constructor
        · intro hge
          exact Or.inr (Or.inr ⟨e, rfl, hge⟩)
        · rintro (hfalse | hnone | ⟨e', rfl, hge⟩)
          · exact absurd hfalse (by simp)
          · exact absurd hnone (by simp)
          · exact hge

/-- Witness for `get_client_fresh_token_no_network` at a concrete fresh
state. -/
theorem get_client_fresh_token_no_network_witness :
    (get_client ⟨none, none⟩ 400
      ⟨some "tok", some "ref", some 1000, some ⟨some "tok"⟩⟩).run.calls
      = [] ∧
    (get_client ⟨none, none⟩ 400
      ⟨some "tok", some "ref", some 1000, some ⟨some "tok"⟩⟩).ret
      = some ⟨some "tok"⟩ := by
  have h := (get_client_fresh_token_no_network ⟨none, none⟩ 400
    ⟨some "tok", some "ref", some 1000, some ⟨some "tok"⟩⟩).1
    1000 rfl (by decide) (by decide)
  exact ⟨h.1, h.2.2⟩

/-- C2 counterexample: from the initial state (no refresh token) with a
failing login, `get_client()` raises after a single login attempt and no
refresh attempt, refuting the claim that every raise implies both a failed
refresh and a failed login. -/
theorem get_client_raise_without_refresh_counterexample :
    (get_client ⟨none, none⟩ 0 TMState.init).run.raised = true ∧
    (get_client ⟨none, none⟩ 0 TMState.init).run.calls = [NetCall.login] ∧
    NetCall.refresh ∉ (get_client ⟨none, none⟩ 0 TMState.init).run.calls := by
  decide

/-- C2 (amended): whenever `get_client()` raises, a login attempt was made
and failed during that call; and if the state held a (truthy) refresh
token, a refresh attempt was also made and failed. Only when no refresh
token exists can `get_client()` raise from the login attempt alone. -/
theorem get_client_raise_requires_login_failure (env : NetEnv) (now : Int)
    (s : TMState)
    (h : (get_client env now s).run.raised = true) :
    env.loginResult = none ∧
    NetCall.login ∈ (get_client env now s).run.calls ∧
    (strTruthy s.refresh_token = true →
      env.refreshResult = none ∧
      NetCall.refresh ∈ (get_client env now s).run.calls) := by
  cases hexp : is_token_expired now s with
  | false => simp [get_client, hexp] at h
  | true =>
    cases hrt : strTruthy s.refresh_token with
    | false =>
      cases hl : env.loginResult with
      | some td => simp [get_client, hexp, hrt, loginStep, hl] at h
      | none =>
        refine ⟨rfl, ?_, by simp [hrt]⟩
        simp [get_client, hexp, hrt, loginStep, hl]
    | true =>
      cases hre : env.refreshResult with
      | some td => simp [get_client, hexp, hrt, refreshStep, hre] at h
      | none =>
        cases hl : env.loginResult with
        | some td =>
          simp [get_client, hexp, hrt, refreshStep, hre, loginStep, hl] at h
        | none =>
          refine ⟨rfl, ?_, fun _ => ⟨rfl, ?_⟩⟩ <;>
            simp [get_client, hexp, hrt, refreshStep, hre, loginStep, hl]

/-- Witness for `get_client_raise_requires_login_failure` at a concrete
expired state holding a refresh token, with both network calls failing. -/
theorem get_client_raise_requires_login_failure_witness :
    (⟨none, none⟩ : NetEnv).loginResult = none ∧
    NetCall.login ∈ (get_client ⟨none, none⟩ 0
      ⟨some "a", some "r", some 0, some ⟨some "a"⟩⟩).run.calls ∧
    (strTruthy (⟨some "a", some "r", some 0,
        some ⟨some "a"⟩⟩ : TMState).refresh_token = true →
      (⟨none, none⟩ : NetEnv).refreshResult = none ∧
      NetCall.refresh ∈ (get_client ⟨none, none⟩ 0
        ⟨some "a", some "r", some 0, some ⟨some "a"⟩⟩).run.calls) :=
  get_client_raise_requires_login_failure ⟨none, none⟩ 0
    ⟨some "a", some "r", some 0, some ⟨some "a"⟩⟩ (by decide)

/-- C3: for an expired state holding a (truthy) refresh token,
`get_client()` attempts the refresh first; if the refresh fails it falls
through to a full login before returning or raising: the call sequence is
exactly refresh then login, the call raises exactly when the login also
fails, and a successful fallback login returns a client bound to the new
access token. -/
theorem get_client_refresh_falls_back_to_login (env : NetEnv) (now : Int)
    (s : TMState)
    (hexp : is_token_expired now s = true)
    (hrt : strTruthy s.refresh_token = true) :
    (get_client env now s).run.calls.head? = some NetCall.refresh ∧
    (env.refreshResult = none →
      (get_client env now s).run.calls = [NetCall.refresh, NetCall.login] ∧
      ((get_client env now s).run.raised = true ↔ env.loginResult = none) ∧
      (∀ td, env.loginResult = some td →
        (get_client env now s).ret = some ⟨some td.access_token⟩)) := by
  cases hre : env.refreshResult with
  | some td =>
    refine ⟨?_, by simp [hre]⟩
    simp [get_client, hexp, hrt, refreshStep, hre]
  | none =>
    cases hl : env.loginResult with
    | none =>
      refine ⟨?_, fun _ => ⟨?_, ?_, ?_⟩⟩ <;>
        simp [get_client, hexp, hrt, refreshStep, hre, loginStep, hl]
    | some td =>
      refine ⟨?_, fun _ => ⟨?_, ?_, ?_⟩⟩ <;>
        simp [get_client, hexp, hrt, refreshStep, hre, loginStep, hl,
          updateTokensAndClient]

/-- Witness for `get_client_refresh_falls_back_to_login`: refresh fails,
the fallback login succeeds. -/
theorem get_client_refresh_falls_back_to_login_witness :
    (get_client ⟨some ⟨"a2", "r2", none⟩, none⟩ 0
      ⟨some "a", some "r", some 0, some ⟨some "a"⟩⟩).run.calls
      = [NetCall.refresh, NetCall.login] ∧
    (get_client ⟨some ⟨"a2", "r2", none⟩, none⟩ 0
      ⟨some "a", some "r", some 0, some ⟨some "a"⟩⟩).ret
      = some ⟨some "a2"⟩ := by
  have h := get_client_refresh_falls_back_to_login
    ⟨some ⟨"a2", "r2", none⟩, none⟩ 0
    ⟨some "a", some "r", some 0, some ⟨some "a"⟩⟩ (by decide) (by decide)
  exact ⟨(h.2 rfl).1, (h.2 rfl).2.2 ⟨"a2", "r2", none⟩ rfl⟩

/-- C10: in every reachable `TokenManager` state the four fields are
either all `None` (the initial state) or were all set together by one
successful token update with the client bound to the stored access token;
consequently whenever `get_client()` returns without raising it returns a
non-`None` client bound to the current access token, equal to the stored
client, and a call that made no network calls returns the stored client on
an unchanged state. -/
theorem token_manager_invariant (s : TMState) (h : Reachable s) :
    TMInv s ∧
    ∀ env now, (get_client env now s).run.raised = false →
      ∃ a : String,
        (get_client env now s).run.state.access_token = some a ∧
        (get_client env now s).ret = some ⟨some a⟩ ∧
        (get_client env now s).ret = (get_client env now s).run.state.client ∧
        ((get_client env now s).run.calls = [] →
          (get_client env now s).run.state = s ∧
          (get_client env now s).ret = s.client) :=
  ⟨tminv_of_reachable h,
    fun env now hr => get_client_ok_of_inv env now (tminv_of_reachable h) hr⟩

/-- Witness for `token_manager_invariant`: the initial state is reachable
and a successful login from it returns the freshly bound client. -/
theorem token_manager_invariant_witness :
    TMInv TMState.init ∧
    ∃ a : String,
      (get_client ⟨some ⟨"tok", "ref", none⟩, none⟩ 0
        TMState.init).run.state.access_token = some a ∧
      (get_client ⟨some ⟨"tok", "ref", none⟩, none⟩ 0
        TMState.init).ret = some ⟨some a⟩ ∧
      (get_client ⟨some ⟨"tok", "ref", none⟩, none⟩ 0 TMState.init).ret =
        (get_client ⟨some ⟨"tok", "ref", none⟩, none⟩ 0
          TMState.init).run.state.client ∧
      ((get_client ⟨some ⟨"tok", "ref", none⟩, none⟩ 0
          TMState.init).run.calls = [] →
        (get_client ⟨some ⟨"tok", "ref", none⟩, none⟩ 0
          TMState.init).run.state = TMState.init ∧
        (get_client ⟨some ⟨"tok", "ref", none⟩, none⟩ 0
          TMState.init).ret = TMState.init.client) := by
  have h := token_manager_invariant TMState.init Reachable.init
  exact ⟨h.1, h.2 ⟨some ⟨"tok", "ref", none⟩, none⟩ 0 (by decide)⟩

/-- C4: a press arriving less than the 1.0-unit debounce delay after the
remembered press time is ignored outright — no command, no diagnostic, and
the controller state (including `last_press_time`) is unchanged; an
accepted press overwrites `last_press_time` with the current time, so only
the most recent accepted press time is ever remembered. -/
theorem toggle_device_debounce (env : BtnEnv) (s : BtnState) (t : ℚ) :
    (t - s.last_press_time < 1 →
      toggle_device env s t = ⟨s, none, none⟩) ∧
    (1 ≤ t - s.last_press_time →
      (toggle_device env s t).state.last_press_time = t) := by
  constructor
  · intro h
    simp [toggle_device, debounce_delay, h]
  · intro h
    have h' : ¬ t - s.last_press_time < debounce_delay := by
      rw [debounce_delay]; linarith
    unfold toggle_device
    rw [if_neg h']
    rcases hgt : get_target_device env with ⟨fst, snd⟩
    cases fst with
    | none => simp
    | some d =>
      cases hdc : device_controllers d.type with
      | none => simp [hdc]
      | some c => cases hcs : get_device_state env d <;> simp [hdc, hcs]

/-- Witness for `toggle_device_debounce`: a press at t = 0.5 after a press
remembered at t = 0 is ignored; a press at t = 2 is accepted and
remembered. -/
theorem toggle_device_debounce_witness :
    toggle_device ⟨none, none, fun _ => none, fun _ => none⟩ ⟨0⟩ (1 / 2)
      = ⟨⟨0⟩, none, none⟩ ∧
    (toggle_device ⟨none, none, fun _ => none, fun _ => none⟩ ⟨0⟩
      2).state.last_press_time = 2 :=
  ⟨(toggle_device_debounce ⟨none, none, fun _ => none, fun _ => none⟩
      ⟨0⟩ (1 / 2)).1 (by norm_num),
    (toggle_device_debounce ⟨none, none, fun _ => none, fun _ => none⟩
      ⟨0⟩ 2).2 (by norm_num)⟩

lemma get_target_device_none_diag (env : BtnEnv) :
    (get_target_device env).1 = none → (get_target_device env).2 ≠ none := by
  cases hc : env.configFile with
  | none => simp [get_target_device, hc]
  | some o =>
    cases o with
    | none => simp [get_target_device, hc]
    | some cd =>
      cases hbd : cd.button_device with
      | none => simp [get_target_device, hc, hbd]
      | some cfg =>
        cases hds : env.devicesList with
        | none => simp [get_target_device, hc, hbd, hds]
        | some ds =>
          cases hf : ds.find? (fun d => d.mac == cfg.mac) with
          | none => simp [get_target_device, hc, hbd, hds, hf]
          | some d =>
            by_cases ho : d.is_online = true <;>
              simp [get_target_device, hc, hbd, hds, hf, ho]

/-- C5: a missing or unparseable config file, an unset `button_device`
record, a configured MAC absent from the live directory, or an offline
resolved device each make target resolution fail with a diagnostic, and a
press whose target resolution fails issues no command. -/
theorem toggle_device_aborts_without_target (env : BtnEnv) (s : BtnState)
    (t : ℚ) (hacc : 1 ≤ t - s.last_press_time) :
    ((env.configFile = none ∨ env.configFile = some none ∨
        ∃ cd, env.configFile = some (some cd) ∧ cd.button_device = none) →
      (get_target_device env).1 = none) ∧
    (∀ cd cfg ds, env.configFile = some (some cd) →
      cd.button_device = some cfg → env.devicesList = some ds →
      ds.find? (fun d => d.mac == cfg.mac) = none →
      get_target_device env = (none, some Diag.device_not_found)) ∧
    (∀ cd cfg ds d, env.configFile = some (some cd) →
      cd.button_device = some cfg → env.devicesList = some ds →
      ds.find? (fun d => d.mac == cfg.mac) = some d → d.is_online = false →
      get_target_device env = (none, some Diag.device_offline)) ∧
    ((get_target_device env).1 = none → (get_target_device env).2 ≠ none) ∧
    ((get_target_device env).1 = none →
      (toggle_device env s t).cmd = none ∧
      (toggle_device env s t).diag = (get_target_device env).2) := by
  have h' : ¬ t - s.last_press_time < debounce_delay := by
    rw [debounce_delay]; linarith
  refine ⟨?_, ?_, ?_, ?_, ?_⟩
  · rintro (hc | hc | ⟨cd, hc, hbd⟩)
    · simp [get_target_device, hc]
    · simp [get_target_device, hc]
    · simp [get_target_device, hc, hbd]
  · intro cd cfg ds hc hbd hds hf
    simp [get_target_device, hc, hbd, hds, hf]
  · intro cd cfg ds d hc hbd hds hf hoff
    simp [get_target_device, hc, hbd, hds, hf, hoff]
  · exact get_target_device_none_diag env
  · intro hnone
    unfold toggle_device
    rw [if_neg h']
    rcases hgt : get_target_device env with ⟨fst, snd⟩
    rw [hgt] at hnone
    simp at hnone
    subst hnone
    simp

/-- Witness for `toggle_device_aborts_without_target`: a configured MAC
that is not in the live directory aborts the press with the
device-not-found diagnostic and no command. -/
theorem toggle_device_aborts_without_target_witness :
    get_target_device ⟨some (some ⟨some ⟨"M1", "Lamp"⟩, none⟩), some [],
      fun _ => none, fun _ => none⟩ = (none, some Diag.device_not_found) ∧
    (toggle_device ⟨some (some ⟨some ⟨"M1", "Lamp"⟩, none⟩), some [],
      fun _ => none, fun _ => none⟩ ⟨0⟩ 2).cmd = none := by
  have h := toggle_device_aborts_without_target
    ⟨some (some ⟨some ⟨"M1", "Lamp"⟩, none⟩), some [],
      fun _ => none, fun _ => none⟩ ⟨0⟩ 2 (by norm_num)
  have h1 := h.2.1 ⟨some ⟨"M1", "Lamp"⟩, none⟩ ⟨"M1", "Lamp"⟩ []
    rfl rfl rfl rfl
  exact ⟨h1, (h.2.2.2.2 (by rw [h1])).1⟩

lemma toggle_device_resolved (env : BtnEnv) (s : BtnState) (t : ℚ)
    (d : Device) (h' : ¬ t - s.last_press_time < debounce_delay)
    (htgt : (get_target_device env).1 = some d) :
    toggle_device env s t =
      match device_controllers d.type with
      | none => ⟨⟨t⟩, none, some Diag.unsupported_type⟩
      | some c =>
        if get_device_state env d then
          ⟨⟨t⟩, some (Cmd.turn_off c d.mac d.product.model), none⟩
        else
          ⟨⟨t⟩, some (Cmd.turn_on c d.mac d.product.model), none⟩ := by
  have hpair : get_target_device env = (some d, (get_target_device env).2) := by
    rw [← htgt]
  unfold toggle_device
  rw [if_neg h', hpair]

lemma get_device_state_unknown (env : BtnEnv) (d : Device)
    (hdc : device_controllers d.type = none) :
    get_device_state env d = false := by
  have hP : d.type ≠ "Plug" := by
    rintro h; rw [h] at hdc; exact absurd hdc (by decide)
  have hM : d.type ≠ "MeshLight" := by
    rintro h; rw [h] at hdc; exact absurd hdc (by decide)
  have hB : d.type ≠ "Bulb" := by
    rintro h; rw [h] at hdc; exact absurd hdc (by decide)
  have hL : d.type ≠ "Light" := by
    rintro h; rw [h] at hdc; exact absurd hdc (by decide)
  simp [get_device_state, beq_eq_false_iff_ne.mpr hP,
    beq_eq_false_iff_ne.mpr hM, beq_eq_false_iff_ne.mpr hB,
    beq_eq_false_iff_ne.mpr hL]

/-- C6: for a press that resolves an online target device, the issued
command is the inverse of the observed power state — a `Plug` observed via
`plugs.info` (OFF or query failure gives a `turn_on` through the plugs
controller, ON gives `turn_off`), the bulb/light family observed via
`bulbs.info` likewise through the bulbs controller; a type outside the
dispatch table is assumed OFF and gets no command, only the
unsupported-type diagnostic. -/
theorem toggle_device_inverts_observed_state (env : BtnEnv) (s : BtnState)
    (t : ℚ) (d : Device) (hacc : 1 ≤ t - s.last_press_time)
    (htgt : (get_target_device env).1 = some d) :
    (d.type = "Plug" →
      get_device_state env d = (env.plugInfo d.mac).getD false ∧
      ((env.plugInfo d.mac).getD false = false →
        (toggle_device env s t).cmd =
          some (Cmd.turn_on CtrlKind.plugs d.mac d.product.model)) ∧
      ((env.plugInfo d.mac).getD false = true →
        (toggle_device env s t).cmd =
          some (Cmd.turn_off CtrlKind.plugs d.mac d.product.model))) ∧
    ((d.type = "MeshLight" ∨ d.type = "Bulb" ∨ d.type = "Light") →
      get_device_state env d = (env.bulbInfo d.mac).getD false ∧
      ((env.bulbInfo d.mac).getD false = true →
        (toggle_device env s t).cmd =
          some (Cmd.turn_off CtrlKind.bulbs d.mac d.product.model)) ∧
      ((env.bulbInfo d.mac).getD false = false →
        (toggle_device env s t).cmd =
          some (Cmd.turn_on CtrlKind.bulbs d.mac d.product.model))) ∧
    (device_controllers d.type = none →
      get_device_state env d = false ∧
      (toggle_device env s t).cmd = none ∧
      (toggle_device env s t).diag = some Diag.unsupported_type) := by
  have h' : ¬ t - s.last_press_time < debounce_delay := by
    rw [debounce_delay]; linarith
  have hres := toggle_device_resolved env s t d h' htgt
  refine ⟨?_, ?_, ?_⟩
  · intro htype
    have hctrl : device_controllers d.type = some CtrlKind.plugs := by
      rw [htype]; decide
    have hstate : get_device_state env d = (env.plugInfo d.mac).getD false := by
      cases hp : env.plugInfo d.mac <;>
        simp [get_device_state, htype, hp]
    refine ⟨hstate, ?_, ?_⟩
    · intro hoff
      rw [hres, hctrl]
      simp [hstate, hoff]
    · intro hon
      rw [hres, hctrl]
      simp [hstate, hon]
  · intro htype
    have hctrl : device_controllers d.type = some CtrlKind.bulbs := by
      rcases htype with h | h | h <;> rw [h] <;> decide
    have hstate : get_device_state env d = (env.bulbInfo d.mac).getD false := by
      rcases htype with h | h | h <;> cases hb : env.bulbInfo d.mac <;>
        simp [get_device_state, h, hb]
    refine ⟨hstate, ?_, ?_⟩
    · intro hon
      rw [hres, hctrl]
      simp [hstate, hon]
    · intro hoff
      rw [hres, hctrl]
      simp [hstate, hoff]
  · intro hdc
    refine ⟨get_device_state_unknown env d hdc, ?_, ?_⟩ <;>
      rw [hres, hdc]

/-- Witness for `toggle_device_inverts_observed_state`: an online `Plug`
observed OFF receives the `turn_on` command through the plugs
controller. -/
theorem toggle_device_inverts_observed_state_witness :
    (toggle_device ⟨some (some ⟨some ⟨"M1", "Lamp"⟩, none⟩),
      some [⟨"M1", "Lamp", true, "Plug", ⟨"WLPP1"⟩⟩],
      fun _ => some false, fun _ => none⟩ ⟨0⟩ 2).cmd =
      some (Cmd.turn_on CtrlKind.plugs "M1" "WLPP1") := by
  have h := toggle_device_inverts_observed_state
    ⟨some (some ⟨some ⟨"M1", "Lamp"⟩, none⟩),
      some [⟨"M1", "Lamp", true, "Plug", ⟨"WLPP1"⟩⟩],
      fun _ => some false, fun _ => none⟩ ⟨0⟩ 2
    ⟨"M1", "Lamp", true, "Plug", ⟨"WLPP1"⟩⟩ (by norm_num) rfl
  exact (h.1 rfl).2.1 rfl

/-- C7: setting the button device then reading it back yields exactly the
stored mac/nickname record, and clearing then reading yields `None`. -/
theorem button_config_round_trip (cd : ConfigData)
    (mac nickname now_iso : String) (ok ok' : Bool) :
    get_button_device (set_button_device cd mac nickname now_iso ok).1 =
      some ⟨mac, nickname⟩ ∧
    get_button_device (clear_button_device cd ok').1 = none :=
  ⟨rfl, rfl⟩

/-- C9: `set_button_device` and `clear_button_device` mutate the in-memory
config before the file write: when the save fails they return `false` yet
a subsequent `get_button_device` on the same instance already sees the new
value, and the in-memory result does not depend on whether the save
succeeded. -/
theorem set_button_device_mutates_before_save (cd : ConfigData)
    (mac nickname now_iso : String) :
    (set_button_device cd mac nickname now_iso false).2 = false ∧
    get_button_device (set_button_device cd mac nickname now_iso false).1 =
      some ⟨mac, nickname⟩ ∧
    (clear_button_device cd false).2 = false ∧
    get_button_device (clear_button_device cd false).1 = none ∧
    ∀ ok, (set_button_device cd mac nickname now_iso ok).1 =
      (set_button_device cd mac nickname now_iso false).1 :=
  ⟨rfl, rfl, rfl, rfl, fun _ => rfl⟩

/-- C8 counterexample: a `ButtonConfig` constructed while the file held
the Lamp record still returns the Lamp record through
`get_button_device` after the backing file has been changed externally to
the Fan record — this read does not re-parse the store, so the later read
does not return the new file contents. -/
theorem config_stale_read_counterexample :
    get_button_device (ButtonConfig.init
      (some (some ⟨some ⟨"AA:BB", "Lamp"⟩, none⟩))) = some ⟨"AA:BB", "Lamp"⟩ ∧
    (load_config (some (some ⟨some ⟨"CC:DD", "Fan"⟩, none⟩))).button_device =
      some ⟨"CC:DD", "Fan"⟩ ∧
    get_button_device (ButtonConfig.init
      (some (some ⟨some ⟨"AA:BB", "Lamp"⟩, none⟩))) ≠
      (load_config (some (some ⟨some ⟨"CC:DD", "Fan"⟩, none⟩))).button_device := by
  decide

/-- C8 (amended): the button press path re-reads and re-parses
`button_config.json` on every press — any device it resolves matches the
MAC configured in the file contents observed at that press, so an external
file change is seen by the next press — whereas
`ButtonConfig.get_button_device` returns the in-memory copy parsed at
construction time. -/
theorem config_press_path_fresh_read (f1 : ConfigFile) (env : BtnEnv)
    (cd : ConfigData) (cfg : BtnDevice) (ds : List Device)
    (hc : env.configFile = some (some cd))
    (hbd : cd.button_device = some cfg)
    (hds : env.devicesList = some ds) :
    (∀ d, (get_target_device env).1 = some d →
      d.mac = cfg.mac ∧ d.is_online = true) ∧
    get_button_device (ButtonConfig.init f1) =
      (load_config f1).button_device := by
  refine ⟨?_, rfl⟩
  intro d htgt
  cases hf : ds.find? (fun x => x.mac == cfg.mac) with
  | none => simp [get_target_device, hc, hbd, hds, hf] at htgt
  | some d0 =>
    by_cases ho : d0.is_online = true
    · have hd0 : d0 = d := by
        simpa [get_target_device, hc, hbd, hds, hf, ho] using htgt
      subst hd0
      have hp := List.find?_some hf
      exact ⟨beq_iff_eq.mp (by simpa using hp), ho⟩
    · simp [get_target_device, hc, hbd, hds, hf, ho] at htgt

/-- Witness for `config_press_path_fresh_read`: a press running after the
file was changed to the Fan record resolves the Fan device. -/
theorem config_press_path_fresh_read_witness :
    (get_target_device ⟨some (some ⟨some ⟨"CC:DD", "Fan"⟩, some "t"⟩),
      some [⟨"CC:DD", "Fan", true, "Plug", ⟨"P1"⟩⟩],
      fun _ => some false, fun _ => none⟩).1 =
      some ⟨"CC:DD", "Fan", true, "Plug", ⟨"P1"⟩⟩ ∧
    (⟨"CC:DD", "Fan", true, "Plug", ⟨"P1"⟩⟩ : Device).is_online = true ∧
    get_button_device (ButtonConfig.init
      (some (some ⟨some ⟨"AA:BB", "Lamp"⟩, none⟩))) =
      (load_config (some (some ⟨some ⟨"AA:BB", "Lamp"⟩, none⟩))).button_device := by
  have h := config_press_path_fresh_read
    (some (some ⟨some ⟨"AA:BB", "Lamp"⟩, none⟩))
    ⟨some (some ⟨some ⟨"CC:DD", "Fan"⟩, some "t"⟩),
      some [⟨"CC:DD", "Fan", true, "Plug", ⟨"P1"⟩⟩],
      fun _ => some false, fun _ => none⟩
    ⟨some ⟨"CC:DD", "Fan"⟩, some "t"⟩ ⟨"CC:DD", "Fan"⟩
    [⟨"CC:DD", "Fan", true, "Plug", ⟨"P1"⟩⟩] rfl rfl rfl
  exact ⟨rfl,
    (h.1 ⟨"CC:DD", "Fan", true, "Plug", ⟨"P1"⟩⟩ rfl).2, h.2⟩

end Wyze
